import Mathlib

/-!
Shallow embedding of the scoring and analysis core of the
`smart-housing-decision` backend (`app/core/scoring.py`,
`app/core/analyzer.py`, and the school-district selection of
`app/api/community.py` / `app/core/aggregator.py`).

Python numbers (ints and floats) are modelled as exact rationals `ℚ`;
Python dicts that the code iterates over are modelled as insertion-ordered
association lists; `None`-able values are `Option`.
-/

namespace SmartHousing

/-- The rank data loaded from `property_ranks.json` / `developer_ranks.json`
(`_PROPERTY_RANKS`, `_DEVELOPER_RANKS`): each has a `top10` and a `top50`
list of company names.  The JSON contents are data, not code, so the
embedding is parametric in them. -/
structure RanksData where
  top10 : List String
  top50 : List String

/-- `ScoringEngine.calc_price_score` from `app/core/scoring.py`. -/
def calc_price_score (avg_price : Option ℚ) (price_min price_max : ℚ) : ℚ :=
  match avg_price with
  | none => 5
  | some avg =>
    if avg ≤ price_min then 10
    else
      let upper_bound := price_max * (6 / 5)
      if avg ≥ upper_bound then 1
      else if avg > price_max then
        let ratio := (avg - price_max) / (upper_bound - price_max)
        4 - ratio * 3
      else
        let price_range := price_max - price_min
        if price_range = 0 then 10
        else
          let ratio := (avg - price_min) / price_range
          10 - ratio * 4

/-- `ScoringEngine.calc_school_score`. -/
def calc_school_score (school_rank : Option String) : ℚ :=
  match school_rank with
  | none => 0
  | some r =>
    if r = "市重点" then 10
    else if r = "区重点" then 7
    else if r = "普通" then 5
    else 0

/-- `ScoringEngine.CATEGORY_WEIGHTS` together with the `.get(category, 1.0)`
access used in `calc_facilities_score`: 地铁 (subway) 3.0, 医院 (hospital) 2.0,
商场 (mall) 2.0, 公园 (park) 1.5, 学校 (school) 1.5, anything else 1.0. -/
def CATEGORY_WEIGHTS (category : String) : ℚ :=
  if category = "地铁" then 3
  else if category = "医院" then 2
  else if category = "商场" then 2
  else if category = "公园" then 3 / 2
  else if category = "学校" then 3 / 2
  else 1

/-- A POI dict as consumed by `calc_facilities_score`: a `category` string
(`poi.get("category", "")` — the default is folded into the field) and an
optional `distance`. -/
structure POI where
  category : String
  distance : Option ℚ
deriving DecidableEq

/-- `ScoringEngine._distance_to_score`. -/
def distance_to_score (distance : ℚ) : ℚ :=
  if distance ≤ 500 then 10
  else if distance ≤ 1000 then 7
  else if distance ≤ 2000 then 4
  else 1

/-- One step of the `category_best_scores` dict update in
`calc_facilities_score`: `if category not in m or score > m[category]:
m[category] = score`, on an insertion-ordered association list. -/
def update_best (m : List (String × ℚ)) (category : String) (score : ℚ) :
    List (String × ℚ) :=
  match m with
  | [] => [(category, score)]
  | (c, v) :: rest =>
    if c = category then (c, if score > v then score else v) :: rest
    else (c, v) :: update_best rest category score

/-- The `category_best_scores` loop of `calc_facilities_score`: POIs with a
missing `distance` are skipped (`if distance is None: continue`). -/
def category_best_scores (pois : List POI) : List (String × ℚ) :=
  pois.foldl
    (fun m poi =>
      match poi.distance with
      | none => m
      | some d => update_best m poi.category (distance_to_score d))
    []

/-- `ScoringEngine.calc_facilities_score`. -/
def calc_facilities_score (pois : List POI) : ℚ :=
  if pois = [] then 0
  else
    let best := category_best_scores pois
    if best = [] then 0
    else
      let total_weight := (best.map fun p => CATEGORY_WEIGHTS p.1).sum
      let weighted_sum := (best.map fun p => p.2 * CATEGORY_WEIGHTS p.1).sum
      if total_weight = 0 then 0
      else min (weighted_sum / total_weight) 10

/-- `ScoringEngine.calc_property_score`.  `if company:` is Python truthiness,
so `None` and the empty string both skip the rank bonus; `fee` is accepted
but unused, as in the source. -/
def calc_property_score (ranks : RanksData) (company : Option String)
    (fee green_ratio volume_ratio : Option ℚ) : ℚ :=
  let score : ℚ := 5
  let score :=
    match company with
    | some c =>
      if c ≠ "" then
        if c ∈ ranks.top10 then score + 3
        else if c ∈ ranks.top50 then score + 3 / 2
        else score
      else score
    | none => score
  let score :=
    match green_ratio with
    | some g =>
      if g ≥ 7 / 20 then score + 1
      else if g < 1 / 5 then score - 1
      else score
    | none => score
  let score :=
    match volume_ratio with
    | some v =>
      if v ≤ 2 then score + 1
      else if v > 4 then score - 1
      else score
    | none => score
  let _ := fee
  max 0 (min score 10)

/-- `ScoringEngine.calc_developer_score`. -/
def calc_developer_score (ranks : RanksData) (developer : Option String) : ℚ :=
  match developer with
  | none => 3
  | some d =>
    if d ∈ ranks.top10 then 10
    else if d ∈ ranks.top50 then 7
    else 3

/-- `WeightsConfig` from `app/schemas/community.py`, with its default
weights 0.30 / 0.25 / 0.20 / 0.15 / 0.10. -/
structure WeightsConfig where
  price : ℚ := 3 / 10
  school : ℚ := 1 / 4
  facilities : ℚ := 1 / 5
  property_mgmt : ℚ := 3 / 20
  developer : ℚ := 1 / 10

/-- Python `dict.get(k, default)` on an insertion-ordered association list. -/
def dict_get (m : List (String × ℚ)) (k : String) (d : ℚ) : ℚ :=
  match m.lookup k with
  | some v => v
  | none => d

/-- Python's `round` to an integer (banker's rounding: ties go to the even
integer), on the exact rational model of floats. -/
def round_half_even (y : ℚ) : ℤ :=
  let n := ⌊y⌋
  let frac := y - n
  if frac < 1 / 2 then n
  else if frac > 1 / 2 then n + 1
  else if 2 ∣ n then n else n + 1

/-- Python `round(x, 2)`. -/
def py_round2 (x : ℚ) : ℚ := round_half_even (x * 100) / 100

/-- `ScoringEngine.calc_total_score`: dot product of the five dimension
scores (missing keys default to 0.0) with the weights, rounded to 2
decimals. -/
def calc_total_score (sub_scores : List (String × ℚ)) (weights : WeightsConfig) : ℚ :=
  py_round2
    (dict_get sub_scores "price" 0 * weights.price
      + dict_get sub_scores "school" 0 * weights.school
      + dict_get sub_scores "facilities" 0 * weights.facilities
      + dict_get sub_scores "property_mgmt" 0 * weights.property_mgmt
      + dict_get sub_scores "developer" 0 * weights.developer)

/-! ## Analyzer (`app/core/analyzer.py`) -/

/-- One piece of a Python format string: literal text or a `{field}`
placeholder. -/
inductive TplToken where
  | lit : String → TplToken
  | field : String → TplToken
deriving DecidableEq

/-- `ProConAnalyzer._render_template` together with `_DefaultDict`:
`template.format_map(_DefaultDict(data))` substitutes each placeholder from
`data`, and `_DefaultDict.__missing__` renders a missing key as the literal
`"未知"` ("unknown") instead of raising `KeyError`. -/
def render_template (template : List TplToken) (data : List (String × String)) : String :=
  String.join (template.map fun t =>
    match t with
    | TplToken.lit s => s
    | TplToken.field k =>
      match data.lookup k with
      | some v => v
      | none => "未知")

/-- `PRO_TEMPLATES` from `analyzer.py`, as tokenised format strings; `none`
models `dimension not in PRO_TEMPLATES`. -/
def PRO_TEMPLATES (dimension : String) : Option (List TplToken) :=
  if dimension = "price" then
    some [.lit "性价比高，均价 ", .field "avg_price", .lit " 元/㎡"]
  else if dimension = "school" then some [.lit "对口优质学校"]
  else if dimension = "facilities" then some [.lit "周边配套齐全"]
  else if dimension = "property_mgmt" then
    some [.lit "物业管理品质优良（", .field "property_company", .lit "）"]
  else if dimension = "developer" then
    some [.lit "知名开发商（", .field "developer", .lit "）"]
  else none

/-- `CON_TEMPLATES` from `analyzer.py`. -/
def CON_TEMPLATES (dimension : String) : Option (List TplToken) :=
  if dimension = "price" then
    some [.lit "价格偏高，均价 ", .field "avg_price", .lit " 元/㎡"]
  else if dimension = "school" then some [.lit "学区一般或无对口学校"]
  else if dimension = "facilities" then some [.lit "周边配套不足"]
  else if dimension = "property_mgmt" then some [.lit "物业管理品质较低"]
  else if dimension = "developer" then some [.lit "开发商知名度不高"]
  else none

/-- `PRO_THRESHOLD = 8`. -/
def PRO_THRESHOLD : ℚ := 8

/-- `CON_THRESHOLD = 4`. -/
def CON_THRESHOLD : ℚ := 4

/-- `SUBWAY_NEARBY_DISTANCE = 500`. -/
def SUBWAY_NEARBY_DISTANCE : ℚ := 500

/-- `ProConAnalyzer._collect_pros`: iterate `sub_scores.items()` in dict
(insertion) order, appending the rendered pro template of every dimension
with `score >= PRO_THRESHOLD and dimension in PRO_TEMPLATES`. -/
def _collect_pros (sub_scores : List (String × ℚ))
    (community_data : List (String × String)) : List String :=
  sub_scores.foldl
    (fun pros p =>
      if p.2 ≥ PRO_THRESHOLD then
        match PRO_TEMPLATES p.1 with
        | some tpl => pros ++ [render_template tpl community_data]
        | none => pros
      else pros)
    []

/-- `ProConAnalyzer._collect_cons`. -/
def _collect_cons (sub_scores : List (String × ℚ))
    (community_data : List (String × String)) : List String :=
  sub_scores.foldl
    (fun cons p =>
      if p.2 ≤ CON_THRESHOLD then
        match CON_TEMPLATES p.1 with
        | some tpl => cons ++ [render_template tpl community_data]
        | none => cons
      else cons)
    []

/-- A POI dict as consumed by `_generate_tags`: a `type` string and an
optional `distance` (`poi.get("distance", float("inf"))` makes a missing
distance fail the `<= 500` check, which the `Option` match reproduces). -/
structure AnalyzerPOI where
  type : String
  distance : Option ℚ
deriving DecidableEq

/-- The per-POI condition of the subway-tag loop in `_generate_tags`. -/
def subway_near (poi : AnalyzerPOI) : Bool :=
  poi.type = "subway" &&
    match poi.distance with
    | some d => decide (d ≤ SUBWAY_NEARBY_DISTANCE)
    | none => false

/-- `ProConAnalyzer._generate_tags`: school tag (mutually exclusive
`elif`), then the subway tag (the loop `break`s at the first qualifying POI,
so the tag is appended at most once; `if pois:` is false for `None` and for
an empty list, exactly when the search finds nothing), then the high-value
tag. -/
def _generate_tags (sub_scores : List (String × ℚ)) (school_rank : Option String)
    (pois : Option (List AnalyzerPOI)) : List String :=
  let tags : List String := []
  let tags :=
    if school_rank = some "市重点" then tags ++ ["市重点学区"]
    else if school_rank = some "区重点" then tags ++ ["区重点学区"]
    else tags
  let tags :=
    match pois with
    | some ps => if ps.any subway_near then tags ++ ["地铁旁"] else tags
    | none => tags
  let tags :=
    if dict_get sub_scores "price" 0 ≥ PRO_THRESHOLD then tags ++ ["高性价比"]
    else tags
  tags

/-- The dict returned by `ProConAnalyzer.analyze`. -/
structure AnalysisResult where
  pros : List String
  cons : List String
  tags : List String
deriving DecidableEq

/-- `ProConAnalyzer.analyze`. -/
def analyze (sub_scores : List (String × ℚ)) (community_data : List (String × String))
    (school_rank : Option String := none)
    (pois : Option (List AnalyzerPOI) := none) : AnalysisResult :=
  { pros := _collect_pros sub_scores community_data
    cons := _collect_cons sub_scores community_data
    tags := _generate_tags sub_scores school_rank pois }

/-! ## School-district selection (`app/api/community.py`) -/

/-- A `SchoolDistrict` row as used by the selection logic: its
`school_rank` and optional `year`. -/
structure SchoolDistrict where
  school_rank : Option String
  year : Option ℤ

/-- The sort key of `get_community_detail`:
`lambda sd: (sd.year is None, -(sd.year or 0))`. -/
def sd_sort_key (sd : SchoolDistrict) : Bool × ℤ :=
  (sd.year.isNone, -(sd.year.getD 0))

/-- Python's lexicographic `<=` on the `(bool, int)` sort keys
(`False < True`). -/
def sd_le (a b : SchoolDistrict) : Bool :=
  (!(sd_sort_key a).1 && (sd_sort_key b).1)
    || ((sd_sort_key a).1 == (sd_sort_key b).1
        && decide ((sd_sort_key a).2 ≤ (sd_sort_key b).2))

/-- The selection in `get_community_detail` (and, equivalently, the
`order_by(case((year.is_(None), 1), else_=0), year.desc()).first()` query of
`search_and_rank`): stable-sort the records by `(year is None, -year)` and
take the first, i.e. the most recent dated record when one exists. -/
def select_latest_school_district (districts : List SchoolDistrict) :
    Option SchoolDistrict :=
  (districts.mergeSort sd_le).head?

/-- The piecewise description of `calc_price_score` given by the spec: 5.0
with no price, 10.0 at or below `price_min`, the 10.0→6.0 interpolation
inside the budget (10.0 when `price_min == price_max`), the 4.0→1.0
interpolation strictly inside `(price_max, price_max × 1.2)`, and 1.0 from
`price_max × 1.2` on. -/
def priceScoreCases (pmin pmax avg : ℚ) : Prop :=
  calc_price_score none pmin pmax = 5
  ∧ (avg ≤ pmin → calc_price_score (some avg) pmin pmax = 10)
  ∧ (pmin < avg → avg ≤ pmax → pmin < pmax →
      calc_price_score (some avg) pmin pmax = 10 - (avg - pmin) / (pmax - pmin) * 4)
  ∧ (pmin = pmax → avg ≤ pmax → calc_price_score (some avg) pmin pmax = 10)
  ∧ (pmax < avg → avg < pmax * (6 / 5) →
      calc_price_score (some avg) pmin pmax
        = 4 - (avg - pmax) / (pmax * (6 / 5) - pmax) * 3)
  ∧ (pmax * (6 / 5) ≤ avg → calc_price_score (some avg) pmin pmax = 1)

/-- The total score as worded by the spec, for the refinement comparison
with `calc_total_score`: the dot product of the five dimension scores with
the five weights, a missing dimension key contributing 0.0. -/
def dotProductSpec (sub : List (String × ℚ)) (w : WeightsConfig) : ℚ :=
  ([("price", w.price), ("school", w.school), ("facilities", w.facilities),
      ("property_mgmt", w.property_mgmt), ("developer", w.developer)].map
    (fun p => dict_get sub p.1 0 * p.2)).sum

/-- The pro/con threshold behaviour claimed for `analyze`: a dimension
entry scoring ≥ 8 contributes its rendered pro template to `pros`, one
scoring ≤ 4 contributes its rendered con template to `cons`, one scoring
strictly between 4 and 8 contributes to neither list, and no entry can
contribute to both. -/
def proConClassified (sub : List (String × ℚ)) (data : List (String × String))
    (dim : String) (score : ℚ) : Prop :=
  (∀ tpl, 8 ≤ score → PRO_TEMPLATES dim = some tpl →
    render_template tpl data ∈ (analyze sub data).pros)
  ∧ (∀ tpl, score ≤ 4 → CON_TEMPLATES dim = some tpl →
    render_template tpl data ∈ (analyze sub data).cons)
  ∧ (4 < score → score < 8 →
    (analyze [(dim, score)] data).pros = [] ∧ (analyze [(dim, score)] data).cons = [])
  ∧ ¬((analyze [(dim, score)] data).pros ≠ [] ∧ (analyze [(dim, score)] data).cons ≠ [])
  ∧ ((analyze sub data).pros
      = sub.filterMap fun p =>
          if 8 ≤ p.2 then (PRO_TEMPLATES p.1).map (render_template · data) else none)
  ∧ ((analyze sub data).cons
      = sub.filterMap fun p =>
          if p.2 ≤ 4 then (CON_TEMPLATES p.1).map (render_template · data) else none)

/-- The graceful-degradation behaviour claimed for template rendering: a
placeholder whose key is missing from the attribute map renders as the
literal `"未知"` (so rendering behaves as if the key were bound to
`"未知"`), and the number of pro/con lines emitted never depends on the
attribute map — no line is dropped. -/
def renderDegrades (tpl : List TplToken) (data : List (String × String))
    (k : String) : Prop :=
  render_template [TplToken.field k] data = "未知"
  ∧ render_template tpl data = render_template tpl ((k, "未知") :: data)
  ∧ ∀ (sub : List (String × ℚ)) (d1 d2 : List (String × String)),
      (_collect_pros sub d1).length = (_collect_pros sub d2).length
      ∧ (_collect_cons sub d1).length = (_collect_cons sub d2).length

/-! ## Evaluation lemmas for `calc_price_score` -/

theorem calc_price_score_of_le_min {a pmin : ℚ} (pmax : ℚ) (h : a ≤ pmin) :
    calc_price_score (some a) pmin pmax = 10 := by
  simp [calc_price_score, h]

theorem calc_price_score_of_ge_upper {a pmin pmax : ℚ} (h1 : ¬a ≤ pmin)
    (h2 : pmax * (6 / 5) ≤ a) :
    calc_price_score (some a) pmin pmax = 1 := by
  simp [calc_price_score, h1, h2]

theorem calc_price_score_of_band2 {a pmin pmax : ℚ} (h1 : ¬a ≤ pmin)
    (h2 : a < pmax * (6 / 5)) (h3 : pmax < a) :
    calc_price_score (some a) pmin pmax
      = 4 - (a - pmax) / (pmax * (6 / 5) - pmax) * 3 := by
  simp [calc_price_score, h1, not_le.mpr h2, h3]

theorem calc_price_score_of_band1 {a pmin pmax : ℚ} (h1 : ¬a ≤ pmin)
    (h2 : a < pmax * (6 / 5)) (h3 : ¬pmax < a) (h4 : pmax - pmin ≠ 0) :
    calc_price_score (some a) pmin pmax
      = 10 - (a - pmin) / (pmax - pmin) * 4 := by
  simp [calc_price_score, h1, not_le.mpr h2, h3, h4]

theorem band2_bounds {a pmax : ℚ} (h3 : pmax < a) (h2 : a < pmax * (6 / 5)) :
    1 < 4 - (a - pmax) / (pmax * (6 / 5) - pmax) * 3
      ∧ 4 - (a - pmax) / (pmax * (6 / 5) - pmax) * 3 < 4 := by
  have hd : 0 < pmax * (6 / 5) - pmax := by linarith
  have hr0 : 0 < (a - pmax) / (pmax * (6 / 5) - pmax) :=
    div_pos (by linarith) hd
  have hr1 : (a - pmax) / (pmax * (6 / 5) - pmax) < 1 :=
    (div_lt_one hd).mpr (by linarith)
  constructor <;> linarith

theorem band1_bounds {a pmin pmax : ℚ} (h1 : pmin < a) (h3 : a ≤ pmax) :
    6 ≤ 10 - (a - pmin) / (pmax - pmin) * 4
      ∧ 10 - (a - pmin) / (pmax - pmin) * 4 < 10 := by
  have hd : 0 < pmax - pmin := by linarith
  have hr0 : 0 < (a - pmin) / (pmax - pmin) := div_pos (by linarith) hd
  have hr1 : (a - pmin) / (pmax - pmin) ≤ 1 :=
    (div_le_one hd).mpr (by linarith)
  constructor <;> linarith

theorem band2_antitone {a b pmax : ℚ} (hab : a ≤ b) (h3 : pmax < a)
    (hb : b < pmax * (6 / 5)) :
    4 - (b - pmax) / (pmax * (6 / 5) - pmax) * 3
      ≤ 4 - (a - pmax) / (pmax * (6 / 5) - pmax) * 3 := by
  have hd : 0 < pmax * (6 / 5) - pmax := by linarith
  have hdiv : (a - pmax) / (pmax * (6 / 5) - pmax)
      ≤ (b - pmax) / (pmax * (6 / 5) - pmax) := by
    apply div_le_div_of_nonneg_right <;> linarith
  linarith

theorem band1_antitone {a b pmin pmax : ℚ} (hab : a ≤ b) (h1 : pmin < a)
    (h3 : b ≤ pmax) :
    10 - (b - pmin) / (pmax - pmin) * 4 ≤ 10 - (a - pmin) / (pmax - pmin) * 4 := by
  have hd : 0 < pmax - pmin := by linarith
  have hdiv : (a - pmin) / (pmax - pmin) ≤ (b - pmin) / (pmax - pmin) := by
    apply div_le_div_of_nonneg_right <;> linarith
  linarith

/-- Every price score, including the `None` neutral score, lies in `[1, 10]`. -/
theorem calc_price_score_bounds (avg_price : Option ℚ) (pmin pmax : ℚ) :
    1 ≤ calc_price_score avg_price pmin pmax
      ∧ calc_price_score avg_price pmin pmax ≤ 10 := by
  cases avg_price with
  | none => norm_num [calc_price_score]
  | some a =>
    by_cases h1 : a ≤ pmin
    · rw [calc_price_score_of_le_min pmax h1]; norm_num
    · by_cases h2 : pmax * (6 / 5) ≤ a
      · rw [calc_price_score_of_ge_upper h1 h2]; norm_num
      · push_neg at h2
        by_cases h3 : pmax < a
        · rw [calc_price_score_of_band2 h1 h2 h3]
          have := band2_bounds h3 h2
          constructor <;> linarith [this.1, this.2]
        · have h4 : pmax - pmin ≠ 0 := by
            push_neg at h1 h3
            intro h
            have : pmax = pmin := by linarith
            linarith
          rw [calc_price_score_of_band1 h1 h2 h3 h4]
          push_neg at h1 h3
          have := band1_bounds h1 h3
          constructor <;> linarith [this.1, this.2]

/-! ## Claim C1 -/

/-- C1 (amended): for `price_min ≤ price_max` and `0 < price_max`,
`calc_price_score` follows the spec's piecewise description: 5.0 for an
absent price, 10.0 at or below `price_min`, linear 10.0→6.0 inside the
budget (10.0 when `price_min == price_max`), linear 4.0→1.0 strictly inside
`(price_max, price_max × 1.2)`, and 1.0 from `price_max × 1.2` on.  The
extra hypothesis `0 < price_max` is forced by the counterexample: for
non-positive `price_max` the `avg_price ≥ price_max × 1.2` cutoff fires
inside the budget band. -/
theorem claim_C1_price_score_piecewise (pmin pmax avg : ℚ) (hmm : pmin ≤ pmax)
    (hpos : 0 < pmax) : priceScoreCases pmin pmax avg := by
  refine ⟨by norm_num [calc_price_score], ?_, ?_, ?_, ?_, ?_⟩
  · intro h
    exact calc_price_score_of_le_min pmax h
  · intro ha hb hc
    exact calc_price_score_of_band1 (not_le.mpr ha)
      (by nlinarith) (not_lt.mpr hb) (by intro h; nlinarith)
  · intro he hb
    exact calc_price_score_of_le_min pmax (he ▸ hb)
  · intro ha hb
    exact calc_price_score_of_band2 (not_le.mpr (by linarith)) hb ha
  · intro h
    exact calc_price_score_of_ge_upper (not_le.mpr (by nlinarith)) h

/-- C1 witness: the hypotheses of `claim_C1_price_score_piecewise` hold at
`price_min = 1`, `price_max = 2`, `avg_price = 3/2`. -/
theorem claim_C1_price_score_piecewise_witness :
    ((1 : ℚ) ≤ 2) ∧ ((0 : ℚ) < 2) ∧ priceScoreCases 1 2 (3 / 2) :=
  ⟨by norm_num, by norm_num,
    claim_C1_price_score_piecewise 1 2 (3 / 2) (by norm_num) (by norm_num)⟩

/-- C1 counterexample: with `price_min = -10 ≤ price_max = -5` and
`avg_price = -6` (so `price_min < avg_price ≤ price_max`), the code returns
1.0, not the claimed in-budget interpolation value `34/5 = 6.8`, because
`avg_price ≥ price_max × 1.2 = -6` fires first. -/
theorem claim_C1_counterexample :
    ((-10 : ℚ) ≤ -5) ∧ ((-10 : ℚ) < -6) ∧ ((-6 : ℚ) ≤ -5)
      ∧ calc_price_score (some (-6)) (-10) (-5) = 1
      ∧ 10 - ((-6 : ℚ) - -10) / ((-5 : ℚ) - -10) * 4 = 34 / 5
      ∧ (1 : ℚ) ≠ 34 / 5 := by
  norm_num [calc_price_score]

/-! ## Claim C8 -/

/-- C8: for fixed `price_min`/`price_max`, `calc_price_score` is
monotonically non-increasing in a present `avg_price`, across all segment
boundaries. -/
theorem claim_C8_price_score_antitone (pmin pmax p1 p2 : ℚ) (h12 : p1 ≤ p2) :
    calc_price_score (some p2) pmin pmax ≤ calc_price_score (some p1) pmin pmax := by
  by_cases h1 : p1 ≤ pmin
  · rw [calc_price_score_of_le_min pmax h1]
    exact (calc_price_score_bounds (some p2) pmin pmax).2
  · have h1' : ¬p2 ≤ pmin := fun hc => h1 (le_trans h12 hc)
    by_cases h2 : pmax * (6 / 5) ≤ p1
    · rw [calc_price_score_of_ge_upper h1 h2,
        calc_price_score_of_ge_upper h1' (le_trans h2 h12)]
    · push_neg at h2
      by_cases h3 : pmax < p1
      · rw [calc_price_score_of_band2 h1 h2 h3]
        by_cases k2 : pmax * (6 / 5) ≤ p2
        · rw [calc_price_score_of_ge_upper h1' k2]
          linarith [(band2_bounds h3 h2).1]
        · push_neg at k2
          rw [calc_price_score_of_band2 h1' k2 (lt_of_lt_of_le h3 h12)]
          exact band2_antitone h12 h3 k2
      · push_neg at h3
        have h1p : pmin < p1 := not_le.mp h1
        have h4 : pmax - pmin ≠ 0 := by
          intro hc
          have : pmax = pmin := by linarith
          linarith
        rw [calc_price_score_of_band1 h1 h2 (not_lt.mpr h3) h4]
        have hb1 := band1_bounds h1p h3
        by_cases k2 : pmax * (6 / 5) ≤ p2
        · rw [calc_price_score_of_ge_upper h1' k2]
          linarith [hb1.1]
        · push_neg at k2
          by_cases k3 : pmax < p2
          · rw [calc_price_score_of_band2 h1' k2 k3]
            linarith [(band2_bounds k3 k2).2, hb1.1]
          · push_neg at k3
            rw [calc_price_score_of_band1 h1' k2 (not_lt.mpr k3) h4]
            exact band1_antitone h12 h1p k3

/-- C8 witness: `claim_C8_price_score_antitone` at
`price_min = 1`, `price_max = 2`, prices `3/2 ≤ 4`. -/
theorem claim_C8_price_score_antitone_witness :
    ((3 / 2 : ℚ) ≤ 4)
      ∧ calc_price_score (some 4) 1 2 ≤ calc_price_score (some (3 / 2)) 1 2 :=
  ⟨by norm_num, claim_C8_price_score_antitone 1 2 (3 / 2) 4 (by norm_num)⟩

/-! ## Range lemmas for the other scoring dimensions -/

theorem calc_school_score_bounds (school_rank : Option String) :
    0 ≤ calc_school_score school_rank ∧ calc_school_score school_rank ≤ 10 := by
  cases school_rank with
  | none => norm_num [calc_school_score]
  | some r =>
    simp only [calc_school_score]
    split_ifs <;> norm_num

theorem calc_developer_score_bounds (ranks : RanksData) (developer : Option String) :
    0 ≤ calc_developer_score ranks developer
      ∧ calc_developer_score ranks developer ≤ 10 := by
  cases developer with
  | none => norm_num [calc_developer_score]
  | some d =>
    simp only [calc_developer_score]
    split_ifs <;> norm_num

theorem calc_property_score_bounds (ranks : RanksData) (company : Option String)
    (fee green_ratio volume_ratio : Option ℚ) :
    0 ≤ calc_property_score ranks company fee green_ratio volume_ratio
      ∧ calc_property_score ranks company fee green_ratio volume_ratio ≤ 10 := by
  simp only [calc_property_score]
  exact ⟨le_max_left 0 _, max_le (by norm_num) (min_le_right _ _)⟩

theorem distance_to_score_ge_one (d : ℚ) : 1 ≤ distance_to_score d := by
  simp only [distance_to_score]
  split_ifs <;> norm_num

theorem CATEGORY_WEIGHTS_ge_one (c : String) : 1 ≤ CATEGORY_WEIGHTS c := by
  simp only [CATEGORY_WEIGHTS]
  split_ifs <;> norm_num

theorem update_best_nonneg (m : List (String × ℚ)) (c : String) (s : ℚ)
    (hm : ∀ q ∈ m, 0 ≤ q.2) (hs : 0 ≤ s) :
    ∀ q ∈ update_best m c s, 0 ≤ q.2 := by
  induction m with
  | nil =>
    intro q hq
    simp only [update_best, List.mem_singleton] at hq
    simpa [hq] using hs
  | cons hd tl ih =>
    obtain ⟨c0, v⟩ := hd
    intro q hq
    simp only [update_best] at hq
    by_cases hc : c0 = c
    · rw [if_pos hc] at hq
      rcases List.mem_cons.mp hq with h | h
      · subst h
        split_ifs with hv
        · exact hs
        · exact hm (c0, v) (List.mem_cons_self _ _)
      · exact hm q (List.mem_cons_of_mem _ h)
    · rw [if_neg hc] at hq
      rcases List.mem_cons.mp hq with h | h
      · subst h
        exact hm (c0, v) (List.mem_cons_self _ _)
      · exact ih (fun q hq => hm q (List.mem_cons_of_mem _ hq)) q h

theorem foldl_best_nonneg (pois : List POI) :
    ∀ (m : List (String × ℚ)), (∀ q ∈ m, 0 ≤ q.2) →
      ∀ q ∈ List.foldl
          (fun m poi =>
            match poi.distance with
            | none => m
            | some d => update_best m poi.category (distance_to_score d))
          m pois, 0 ≤ q.2 := by
  induction pois with
  | nil =>
    intro m hm q hq
    simpa using hm q (by simpa using hq)
  | cons p rest ih =>
    intro m hm
    obtain ⟨cat, dist⟩ := p
    cases dist with
    | none => exact ih m hm
    | some d =>
      exact ih _ (update_best_nonneg m cat _ hm
        (le_trans zero_le_one (distance_to_score_ge_one d)))

theorem category_best_scores_nonneg (pois : List POI) :
    ∀ q ∈ category_best_scores pois, 0 ≤ q.2 :=
  foldl_best_nonneg pois [] (by simp)

theorem calc_facilities_score_bounds (pois : List POI) :
    0 ≤ calc_facilities_score pois ∧ calc_facilities_score pois ≤ 10 := by
  simp only [calc_facilities_score]
  split_ifs with h1 h2 h3
  · norm_num
  · norm_num
  · norm_num
  · constructor
    · refine le_min ?_ (by norm_num)
      refine div_nonneg ?_ ?_
      · refine List.sum_nonneg ?_
        intro x hx
        obtain ⟨q, hq, rfl⟩ := List.mem_map.mp hx
        exact mul_nonneg (category_best_scores_nonneg pois q hq)
          (le_trans zero_le_one (CATEGORY_WEIGHTS_ge_one _))
      · refine List.sum_nonneg ?_
        intro x hx
        obtain ⟨q, hq, rfl⟩ := List.mem_map.mp hx
        exact le_trans zero_le_one (CATEGORY_WEIGHTS_ge_one _)
    · exact min_le_right _ _

/-! ## Claim C3 -/

/-- C3: every dimension score lies in `[0, 10]`, for every input — absent
values, arbitrary rank lists, and any combination of green-ratio and
volume-ratio boosts and penalties; in particular `calc_property_score`
never leaves `[0, 10]`. -/
theorem claim_C3_scores_in_range :
    ∀ (ranks : RanksData) (avg_price : Option ℚ) (pmin pmax : ℚ)
      (school_rank : Option String) (pois : List POI)
      (company developer : Option String) (fee green volume : Option ℚ),
      (0 ≤ calc_price_score avg_price pmin pmax
        ∧ calc_price_score avg_price pmin pmax ≤ 10)
      ∧ (0 ≤ calc_school_score school_rank ∧ calc_school_score school_rank ≤ 10)
      ∧ (0 ≤ calc_facilities_score pois ∧ calc_facilities_score pois ≤ 10)
      ∧ (0 ≤ calc_property_score ranks company fee green volume
        ∧ calc_property_score ranks company fee green volume ≤ 10)
      ∧ (0 ≤ calc_developer_score ranks developer
        ∧ calc_developer_score ranks developer ≤ 10) := by
  intro ranks avg_price pmin pmax school_rank pois company developer fee green volume
  have hp := calc_price_score_bounds avg_price pmin pmax
  exact ⟨⟨le_trans (by norm_num) hp.1, hp.2⟩,
    calc_school_score_bounds school_rank,
    calc_facilities_score_bounds pois,
    calc_property_score_bounds ranks company fee green volume,
    calc_developer_score_bounds ranks developer⟩

/-! ## Claim C2 -/

/-- C2: `calc_total_score` is exactly the spec's rounded dot product with
missing keys contributing 0.0, and on the spec's example sub-scores with
weights (0.30, 0.25, 0.20, 0.15, 0.10) it returns 7.65. -/
theorem claim_C2_total_score (sub : List (String × ℚ)) (w : WeightsConfig) :
    calc_total_score sub w = py_round2 (dotProductSpec sub w)
      ∧ calc_total_score
          [("price", 8), ("school", 10), ("facilities", 6),
            ("property_mgmt", 7), ("developer", 5)]
          ⟨3 / 10, 1 / 4, 1 / 5, 3 / 20, 1 / 10⟩ = 7.65 := by
  constructor
  · unfold calc_total_score
    congr 1
    simp [dotProductSpec]
    ring
  · simp +decide [calc_total_score, dict_get, List.lookup]
    norm_num [py_round2, round_half_even]

/-! ## Structure lemmas for `_collect_pros` / `_collect_cons` -/

/-- The per-entry contribution of the `_collect_pros` loop. -/
theorem collect_pros_acc (sub : List (String × ℚ)) (data : List (String × String))
    (acc : List String) :
    sub.foldl
        (fun pros p =>
          if p.2 ≥ PRO_THRESHOLD then
            match PRO_TEMPLATES p.1 with
            | some tpl => pros ++ [render_template tpl data]
            | none => pros
          else pros)
        acc
      = acc ++ _collect_pros sub data := by
  induction sub generalizing acc with
  | nil => simp [_collect_pros]
  | cons p rest ih =>
    simp only [_collect_pros, List.foldl_cons]
    rw [ih, ih]
    by_cases hs : p.2 ≥ PRO_THRESHOLD
    · rcases ht : PRO_TEMPLATES p.1 with _ | tpl <;> simp [hs, ht]
    · simp [hs]

theorem collect_cons_acc (sub : List (String × ℚ)) (data : List (String × String))
    (acc : List String) :
    sub.foldl
        (fun cons p =>
          if p.2 ≤ CON_THRESHOLD then
            match CON_TEMPLATES p.1 with
            | some tpl => cons ++ [render_template tpl data]
            | none => cons
          else cons)
        acc
      = acc ++ _collect_cons sub data := by
  induction sub generalizing acc with
  | nil => simp [_collect_cons]
  | cons p rest ih =>
    simp only [_collect_cons, List.foldl_cons]
    rw [ih, ih]
    by_cases hs : p.2 ≤ CON_THRESHOLD
    · rcases ht : CON_TEMPLATES p.1 with _ | tpl <;> simp [hs, ht]
    · simp [hs]

/-- `_collect_pros` decomposed at a cons: the head contributes its rendered
pro line exactly when its score reaches the threshold and it has a pro
template. -/
theorem collect_pros_cons (p : String × ℚ) (sub : List (String × ℚ))
    (data : List (String × String)) :
    _collect_pros (p :: sub) data
      = (if p.2 ≥ PRO_THRESHOLD then
          match PRO_TEMPLATES p.1 with
          | some tpl => [render_template tpl data]
          | none => []
        else []) ++ _collect_pros sub data := by
  rw [_collect_pros, List.foldl_cons, collect_pros_acc]
  by_cases hs : p.2 ≥ PRO_THRESHOLD
  · rcases ht : PRO_TEMPLATES p.1 with _ | tpl <;> simp [hs, ht]
  · simp [hs]

theorem collect_cons_cons (p : String × ℚ) (sub : List (String × ℚ))
    (data : List (String × String)) :
    _collect_cons (p :: sub) data
      = (if p.2 ≤ CON_THRESHOLD then
          match CON_TEMPLATES p.1 with
          | some tpl => [render_template tpl data]
          | none => []
        else []) ++ _collect_cons sub data := by
  rw [_collect_cons, List.foldl_cons, collect_cons_acc]
  by_cases hs : p.2 ≤ CON_THRESHOLD
  · rcases ht : CON_TEMPLATES p.1 with _ | tpl <;> simp [hs, ht]
  · simp [hs]

/-- `_collect_pros` as an entrywise filter-and-render of the mapping. -/
theorem collect_pros_filterMap (sub : List (String × ℚ))
    (data : List (String × String)) :
    _collect_pros sub data
      = sub.filterMap fun p =>
          if 8 ≤ p.2 then (PRO_TEMPLATES p.1).map (render_template · data)
          else none := by
  induction sub with
  | nil => simp [_collect_pros]
  | cons p rest ih =>
    rw [collect_pros_cons, List.filterMap_cons, ih]
    by_cases hs : p.2 ≥ PRO_THRESHOLD
    · have h8 : 8 ≤ p.2 := by simpa [PRO_THRESHOLD, ge_iff_le] using hs
      rcases ht : PRO_TEMPLATES p.1 with _ | tpl <;> simp [hs, h8, ht]
    · rw [if_neg hs, if_neg (by simpa [PRO_THRESHOLD] using hs)]
      simp

/-- `_collect_cons` as an entrywise filter-and-render of the mapping. -/
theorem collect_cons_filterMap (sub : List (String × ℚ))
    (data : List (String × String)) :
    _collect_cons sub data
      = sub.filterMap fun p =>
          if p.2 ≤ 4 then (CON_TEMPLATES p.1).map (render_template · data)
          else none := by
  induction sub with
  | nil => simp [_collect_cons]
  | cons p rest ih =>
    rw [collect_cons_cons, List.filterMap_cons, ih]
    by_cases hs : p.2 ≤ CON_THRESHOLD
    · have h4 : p.2 ≤ 4 := by simpa [CON_THRESHOLD] using hs
      rcases ht : CON_TEMPLATES p.1 with _ | tpl <;> simp [hs, h4, ht]
    · rw [if_neg hs, if_neg (by simpa [CON_THRESHOLD] using hs)]
      simp

/-! ## Claim C4 -/

/-- C4: `analyze` puts a dimension with score ≥ 8 into `pros` (rendering
its pro template), a dimension with score ≤ 4 into `cons` (rendering its
con template), a dimension with score strictly between 4 and 8 into
neither, and never into both; the pros/cons lists are exactly the
entrywise threshold filters of the mapping. -/
theorem claim_C4_threshold_classification (sub : List (String × ℚ))
    (data : List (String × String)) (dim : String) (score : ℚ)
    (hmem : (dim, score) ∈ sub) : proConClassified sub data dim score := by
  refine ⟨?_, ?_, ?_, ?_, collect_pros_filterMap sub data,
    collect_cons_filterMap sub data⟩
  · intro tpl hs ht
    show render_template tpl data ∈ _collect_pros sub data
    induction sub with
    | nil => cases hmem
    | cons p rest ih =>
      rw [collect_pros_cons]
      rcases List.mem_cons.mp hmem with h | h
      · rw [← h]
        simp only [ht, ge_iff_le, PRO_THRESHOLD]
        rw [if_pos hs]
        exact List.mem_append_left _ (List.mem_singleton_self _)
      · exact List.mem_append_right _ (ih h)
  · intro tpl hs ht
    show render_template tpl data ∈ _collect_cons sub data
    induction sub with
    | nil => cases hmem
    | cons p rest ih =>
      rw [collect_cons_cons]
      rcases List.mem_cons.mp hmem with h | h
      · rw [← h]
        simp only [ht, CON_THRESHOLD]
        rw [if_pos hs]
        exact List.mem_append_left _ (List.mem_singleton_self _)
      · exact List.mem_append_right _ (ih h)
  · intro h4 h8
    constructor
    · show _collect_pros [(dim, score)] data = []
      rw [collect_pros_cons]
      rw [if_neg (by simp [PRO_THRESHOLD]; linarith)]
      simp [_collect_pros]
    · show _collect_cons [(dim, score)] data = []
      rw [collect_cons_cons]
      rw [if_neg (by simp [CON_THRESHOLD]; linarith)]
      simp [_collect_cons]
  · rintro ⟨hp, hc⟩
    have hps : PRO_THRESHOLD ≤ score := by
      by_contra hlt
      apply hp
      show _collect_pros [(dim, score)] data = []
      rw [collect_pros_cons, if_neg (by simpa using hlt)]
      simp [_collect_pros]
    have hcs : score ≤ CON_THRESHOLD := by
      by_contra hgt
      apply hc
      show _collect_cons [(dim, score)] data = []
      rw [collect_cons_cons, if_neg (by simpa using hgt)]
      simp [_collect_cons]
    rw [PRO_THRESHOLD] at hps
    rw [CON_THRESHOLD] at hcs
    linarith

/-- C4 witness: `claim_C4_threshold_classification` at the entry
`("price", 8)` of a concrete sub-scores mapping. -/
theorem claim_C4_threshold_classification_witness :
    (("price", (8 : ℚ)) ∈ [("price", (8 : ℚ)), ("school", 4)])
      ∧ proConClassified [("price", 8), ("school", 4)] [] "price" 8 :=
  ⟨by simp,
    claim_C4_threshold_classification [("price", 8), ("school", 4)] [] "price" 8
      (by simp)⟩

/-! ## Claim C7 -/

/-- C7: template rendering never drops a line and never fails — a
placeholder whose key is missing from the attribute map renders as the
literal `"未知"` placeholder (rendering behaves as if the key were bound to
`"未知"`), and the number of emitted pro/con lines is independent of the
attribute map. -/
theorem claim_C7_render_missing_key (tpl : List TplToken)
    (data : List (String × String)) (k : String)
    (hk : data.lookup k = none) : renderDegrades tpl data k := by
  refine ⟨?_, ?_, ?_⟩
  · show render_template [TplToken.field k] data = "未知"
    simp only [render_template, List.map_cons, List.map_nil, hk]
    rfl
  · unfold render_template
    congr 1
    refine List.map_congr_left ?_
    intro t ht
    cases t with
    | lit s => rfl
    | field k0 =>
      by_cases hk0 : k0 = k
      · subst hk0
        simp [List.lookup, hk]
      · have hbeq : (k0 == k) = false := by simp [hk0]
        simp [List.lookup, hbeq]
  · intro sub d1 d2
    induction sub with
    | nil => simp [_collect_pros, _collect_cons]
    | cons p rest ih =>
      rw [collect_pros_cons, collect_pros_cons, collect_cons_cons,
        collect_cons_cons]
      constructor
      · simp only [List.length_append, ih.1]
        congr 1
        by_cases hs : p.2 ≥ PRO_THRESHOLD
        · rcases ht : PRO_TEMPLATES p.1 with _ | t <;> simp [hs, ht]
        · simp [hs]
      · simp only [List.length_append, ih.2]
        congr 1
        by_cases hs : p.2 ≤ CON_THRESHOLD
        · rcases ht : CON_TEMPLATES p.1 with _ | t <;> simp [hs, ht]
        · simp [hs]

/-- C7 witness: `claim_C7_render_missing_key` for the price pro template
against an attribute map that lacks `avg_price`. -/
theorem claim_C7_render_missing_key_witness :
    (List.lookup "avg_price" ([("developer", "万科")] : List (String × String)) = none)
      ∧ renderDegrades [TplToken.lit "性价比高，均价 ", TplToken.field "avg_price"]
          [("developer", "万科")] "avg_price" :=
  ⟨by simp +decide [List.lookup],
    claim_C7_render_missing_key _ _ _ (by simp +decide [List.lookup])⟩

/-! ## Claim C5 -/

/-- C5 counterexample: two mappings containing all five dimensions that
differ only in insertion order (`school` inserted before `price`, middle
scores 5 elsewhere) yield different pros lists — the output order depends
on the insertion order, and with `school` first the pros list does not
follow the declared order price, school, facilities, property_mgmt,
developer. -/
theorem claim_C5_counterexample :
    (analyze [("school", (10 : ℚ)), ("price", 10), ("facilities", 5),
        ("property_mgmt", 5), ("developer", 5)] []).pros
        = ["对口优质学校", "性价比高，均价 未知 元/㎡"]
      ∧ (analyze [("price", (10 : ℚ)), ("school", 10), ("facilities", 5),
          ("property_mgmt", 5), ("developer", 5)] []).pros
        = ["性价比高，均价 未知 元/㎡", "对口优质学校"]
      ∧ (analyze [("school", (10 : ℚ)), ("price", 10), ("facilities", 5),
          ("property_mgmt", 5), ("developer", 5)] []).pros
        ≠ (analyze [("price", (10 : ℚ)), ("school", 10), ("facilities", 5),
            ("property_mgmt", 5), ("developer", 5)] []).pros := by
  have h1 : (analyze [("school", (10 : ℚ)), ("price", 10), ("facilities", 5),
      ("property_mgmt", 5), ("developer", 5)] []).pros
      = ["对口优质学校", "性价比高，均价 未知 元/㎡"] := by
    show _collect_pros _ _ = _
    rw [collect_pros_cons, collect_pros_cons, collect_pros_cons,
      collect_pros_cons, collect_pros_cons]
    rw [if_pos (by norm_num [PRO_THRESHOLD]), if_pos (by norm_num [PRO_THRESHOLD]),
      if_neg (by norm_num [PRO_THRESHOLD]), if_neg (by norm_num [PRO_THRESHOLD]),
      if_neg (by norm_num [PRO_THRESHOLD])]
    simp +decide [PRO_TEMPLATES, _collect_pros, render_template]
  have h2 : (analyze [("price", (10 : ℚ)), ("school", 10), ("facilities", 5),
      ("property_mgmt", 5), ("developer", 5)] []).pros
      = ["性价比高，均价 未知 元/㎡", "对口优质学校"] := by
    show _collect_pros _ _ = _
    rw [collect_pros_cons, collect_pros_cons, collect_pros_cons,
      collect_pros_cons, collect_pros_cons]
    rw [if_pos (by norm_num [PRO_THRESHOLD]), if_pos (by norm_num [PRO_THRESHOLD]),
      if_neg (by norm_num [PRO_THRESHOLD]), if_neg (by norm_num [PRO_THRESHOLD]),
      if_neg (by norm_num [PRO_THRESHOLD])]
    simp +decide [PRO_TEMPLATES, _collect_pros, render_template]
  refine ⟨h1, h2, ?_⟩
  rw [h1, h2]
  decide

/-- C5 (amended): for every `sub_scores` mapping, the pros and cons lists
are the entrywise threshold filter of the mapping taken in its insertion
order — the outputs list qualifying dimensions in the order their entries
appear in the mapping, not in a fixed declared order; consequently, when
the mapping is built in the declared order price, school, facilities,
property_mgmt, developer — as `DataAggregator.score_community` builds
it — the outputs list qualifying dimensions in that declared order. -/
theorem claim_C5_insertion_order (sub : List (String × ℚ))
    (data : List (String × String)) (sp ss sf spm sd : ℚ) :
    ((analyze sub data).pros
      = sub.filterMap fun p =>
          if 8 ≤ p.2 then (PRO_TEMPLATES p.1).map (render_template · data)
          else none)
    ∧ ((analyze sub data).cons
      = sub.filterMap fun p =>
          if p.2 ≤ 4 then (CON_TEMPLATES p.1).map (render_template · data)
          else none)
    ∧ ((analyze [("price", sp), ("school", ss), ("facilities", sf),
        ("property_mgmt", spm), ("developer", sd)] data).pros
      = (if 8 ≤ sp then [render_template ((PRO_TEMPLATES "price").getD []) data] else [])
        ++ (if 8 ≤ ss then [render_template ((PRO_TEMPLATES "school").getD []) data] else [])
        ++ (if 8 ≤ sf then [render_template ((PRO_TEMPLATES "facilities").getD []) data] else [])
        ++ (if 8 ≤ spm then [render_template ((PRO_TEMPLATES "property_mgmt").getD []) data] else [])
        ++ (if 8 ≤ sd then [render_template ((PRO_TEMPLATES "developer").getD []) data] else []))
    ∧ ((analyze [("price", sp), ("school", ss), ("facilities", sf),
          ("property_mgmt", spm), ("developer", sd)] data).cons
        = (if sp ≤ 4 then [render_template ((CON_TEMPLATES "price").getD []) data] else [])
          ++ (if ss ≤ 4 then [render_template ((CON_TEMPLATES "school").getD []) data] else [])
          ++ (if sf ≤ 4 then [render_template ((CON_TEMPLATES "facilities").getD []) data] else [])
          ++ (if spm ≤ 4 then [render_template ((CON_TEMPLATES "property_mgmt").getD []) data] else [])
          ++ (if sd ≤ 4 then [render_template ((CON_TEMPLATES "developer").getD []) data] else [])) := by
  refine ⟨collect_pros_filterMap sub data, collect_cons_filterMap sub data, ?_, ?_⟩
  · show _collect_pros _ _ = _
    rw [collect_pros_cons, collect_pros_cons, collect_pros_cons,
      collect_pros_cons, collect_pros_cons]
    simp +decide [PRO_TEMPLATES, PRO_THRESHOLD, _collect_pros, ge_iff_le]
  · show _collect_cons _ _ = _
    rw [collect_cons_cons, collect_cons_cons, collect_cons_cons,
      collect_cons_cons, collect_cons_cons]
    simp +decide [CON_TEMPLATES, CON_THRESHOLD, _collect_cons]

/-! ## Claim C6 -/

/-- The subway-tag condition in terms of the claim's vocabulary: some POI
of type `subway` with a present distance of at most 500 metres. -/
theorem any_subway_iff (ps : List AnalyzerPOI) :
    ps.any subway_near = true
      ↔ ∃ p ∈ ps, p.type = "subway" ∧ ∃ d, p.distance = some d ∧ d ≤ 500 := by
  rw [List.any_eq_true]
  refine exists_congr fun p => and_congr_right fun _ => ?_
  cases hd : p.distance with
  | none => simp [subway_near, hd]
  | some d => simp [subway_near, hd, SUBWAY_NEARBY_DISTANCE]

/-- C6: the tags of `analyze` consist of the school tag (top-tier 市重点
beating district-tier 区重点, mutually exclusive), then the near-subway tag
(appended exactly once when some POI of type `subway` lies within 500 m,
never otherwise — a missing distance never qualifies), then the high-value
tag (exactly when the price sub-score is ≥ 8), in that order. -/
theorem claim_C6_tags (sub : List (String × ℚ)) (data : List (String × String))
    (sr : Option String) (ps : List AnalyzerPOI) :
    ((analyze sub data sr (some ps)).tags
      = (if sr = some "市重点" then ["市重点学区"]
          else if sr = some "区重点" then ["区重点学区"] else [])
        ++ (if ps.any subway_near then ["地铁旁"] else [])
        ++ (if 8 ≤ dict_get sub "price" 0 then ["高性价比"] else []))
    ∧ ("市重点学区" ∈ (analyze sub data sr (some ps)).tags ↔ sr = some "市重点")
    ∧ ("区重点学区" ∈ (analyze sub data sr (some ps)).tags ↔ sr = some "区重点")
    ∧ ¬("市重点学区" ∈ (analyze sub data sr (some ps)).tags
        ∧ "区重点学区" ∈ (analyze sub data sr (some ps)).tags)
    ∧ ((analyze sub data sr (some ps)).tags.count "地铁旁"
        = if ps.any subway_near then 1 else 0)
    ∧ (ps.any subway_near = true
        ↔ ∃ p ∈ ps, p.type = "subway" ∧ ∃ d, p.distance = some d ∧ d ≤ 500)
    ∧ ("高性价比" ∈ (analyze sub data sr (some ps)).tags
        ↔ 8 ≤ dict_get sub "price" 0) := by
  have hiff := any_subway_iff ps
  by_cases h1 : sr = some "市重点"
  · have h2 : ¬sr = some "区重点" := by simp [h1]
    by_cases h3 : ps.any subway_near = true <;>
      by_cases h4 : 8 ≤ dict_get sub "price" 0 <;>
        simp +decide [analyze, _generate_tags, h1, h2, h3, h4, PRO_THRESHOLD,
          ge_iff_le, ← hiff]
  · by_cases h2 : sr = some "区重点" <;>
      by_cases h3 : ps.any subway_near = true <;>
        by_cases h4 : 8 ≤ dict_get sub "price" 0 <;>
          simp +decide [analyze, _generate_tags, h1, h2, h3, h4, PRO_THRESHOLD,
            ge_iff_le, ← hiff]

/-! ## Claim C9 -/

theorem sd_le_total (a b : SchoolDistrict) : sd_le a b || sd_le b a := by
  obtain ⟨ra, ya⟩ := a
  obtain ⟨rb, yb⟩ := b
  rcases ya with _ | ya <;> rcases yb with _ | yb <;>
    (simp [sd_le, sd_sort_key]; try omega)

theorem sd_le_trans (a b c : SchoolDistrict) (hab : sd_le a b = true)
    (hbc : sd_le b c = true) : sd_le a c = true := by
  obtain ⟨ra, ya⟩ := a
  obtain ⟨rb, yb⟩ := b
  obtain ⟨rc, yc⟩ := c
  rcases ya with _ | ya <;> rcases yb with _ | yb <;> rcases yc with _ | yc <;>
    (simp [sd_le, sd_sort_key] at *; try omega)

/-- C9: when some record of a community has a year, the selected record is
a member of the list, carries a year, and that year is greatest among all
dated records — a record with an absent year is never selected while a
dated record exists. -/
theorem claim_C9_latest_school_district (l : List SchoolDistrict)
    (h : ∃ r ∈ l, r.year.isSome) :
    ∃ sd, select_latest_school_district l = some sd ∧ sd ∈ l
      ∧ ∃ y, sd.year = some y ∧ ∀ r ∈ l, ∀ y', r.year = some y' → y' ≤ y := by
  obtain ⟨r0, hr0, hy0⟩ := h
  have hperm := List.mergeSort_perm l sd_le
  have hne : l.mergeSort sd_le ≠ [] := by
    intro hnil
    rw [hnil] at hperm
    rw [hperm.symm.eq_nil] at hr0
    cases hr0
  obtain ⟨hd, tl, hsort⟩ := List.exists_cons_of_ne_nil hne
  have hhead : select_latest_school_district l = some hd := by
    simp [select_latest_school_district, hsort]
  have hmemhd : hd ∈ l := hperm.mem_iff.mp (by simp [hsort])
  have hpw := List.sorted_mergeSort
    (fun a b c hab hbc => sd_le_trans a b c hab hbc)
    (fun a b => sd_le_total a b) l
  rw [hsort] at hpw
  have hleall : ∀ r ∈ l, r = hd ∨ sd_le hd r = true := by
    intro r hr
    have hrm : r ∈ hd :: tl := by
      rw [← hsort]
      exact hperm.mem_iff.mpr hr
    rcases List.mem_cons.mp hrm with he | he
    · exact Or.inl he
    · exact Or.inr ((List.pairwise_cons.mp hpw).1 r he)
  have hdy : ∃ y, hd.year = some y := by
    rcases hy : hd.year with _ | y
    · rcases hleall r0 hr0 with he | hsdle
      · rw [he, hy] at hy0
        cases hy0
      · obtain ⟨yr, hyr⟩ := Option.isSome_iff_exists.mp hy0
        simp [sd_le, sd_sort_key, hy, hyr] at hsdle
    · exact ⟨y, rfl⟩
  obtain ⟨y, hy⟩ := hdy
  refine ⟨hd, hhead, hmemhd, y, hy, ?_⟩
  intro r hr y' hy'
  rcases hleall r hr with he | hsdle
  · rw [he, hy] at hy'
    injection hy' with h
    omega
  · simp [sd_le, sd_sort_key, hy, hy'] at hsdle
    omega

/-- C9 witness: `claim_C9_latest_school_district` on a list with a 2021
record, a 2023 record and an undated record: the 2023 record wins. -/
theorem claim_C9_latest_school_district_witness :
    (∃ r ∈ [(⟨some "普通", some 2021⟩ : SchoolDistrict),
        ⟨some "市重点", some 2023⟩, ⟨some "区重点", none⟩], r.year.isSome)
      ∧ ∃ sd, select_latest_school_district
            [(⟨some "普通", some 2021⟩ : SchoolDistrict),
              ⟨some "市重点", some 2023⟩, ⟨some "区重点", none⟩] = some sd
          ∧ sd ∈ [(⟨some "普通", some 2021⟩ : SchoolDistrict),
              ⟨some "市重点", some 2023⟩, ⟨some "区重点", none⟩]
          ∧ ∃ y, sd.year = some y
            ∧ ∀ r ∈ [(⟨some "普通", some 2021⟩ : SchoolDistrict),
                ⟨some "市重点", some 2023⟩, ⟨some "区重点", none⟩],
                ∀ y', r.year = some y' → y' ≤ y :=
  ⟨⟨⟨some "普通", some 2021⟩, by simp, by simp⟩,
    claim_C9_latest_school_district _ ⟨⟨some "普通", some 2021⟩, by simp, by simp⟩⟩

/-! ## Claim C10 -/

theorem foldl_best_skip_none (pois : List POI)
    (h : ∀ p ∈ pois, p.distance = none) :
    ∀ m, List.foldl
        (fun m poi =>
          match poi.distance with
          | none => m
          | some d => update_best m poi.category (distance_to_score d))
        m pois = m := by
  induction pois with
  | nil => intro m; rfl
  | cons p rest ih =>
    intro m
    rw [List.foldl_cons]
    have hp : p.distance = none := h p (List.mem_cons_self _ _)
    rw [show (match p.distance with
        | none => m
        | some d => update_best m p.category (distance_to_score d)) = m by
      rw [hp]]
    exact ih (fun q hq => h q (List.mem_cons_of_mem _ hq)) m

/-- C10: POIs without a distance are skipped entirely — prepending any
all-`None`-distance POIs never changes the facilities score, and a
non-empty list in which every POI lacks a distance scores 0.0. -/
theorem claim_C10_none_distance_skipped (pois : List POI)
    (h : ∀ p ∈ pois, p.distance = none) :
    calc_facilities_score pois = 0
      ∧ ∀ qs : List POI, calc_facilities_score (pois ++ qs) = calc_facilities_score qs := by
  have hbest : category_best_scores pois = [] := by
    unfold category_best_scores
    exact foldl_best_skip_none pois h []
  constructor
  · by_cases hnil : pois = []
    · simp [calc_facilities_score, hnil]
    · simp only [calc_facilities_score, hbest]
      rw [if_neg hnil]
      simp
  · intro qs
    have hbest2 : category_best_scores (pois ++ qs) = category_best_scores qs := by
      unfold category_best_scores
      rw [List.foldl_append, foldl_best_skip_none pois h []]
    cases qs with
    | nil =>
      rw [List.append_nil]
      by_cases hnil : pois = []
      · rw [hnil]
      · simp only [calc_facilities_score, hbest]
        rw [if_neg hnil]
        simp
    | cons q qt =>
      simp only [calc_facilities_score, hbest2]
      have happ : pois ++ q :: qt ≠ [] := by simp
      rw [if_neg happ, if_neg (List.cons_ne_nil q qt)]

/-- C10 witness: `claim_C10_none_distance_skipped` on a non-empty list
whose every POI lacks a distance. -/
theorem claim_C10_none_distance_skipped_witness :
    (∀ p ∈ [(⟨"地铁", none⟩ : POI), ⟨"医院", none⟩], p.distance = none)
      ∧ calc_facilities_score [(⟨"地铁", none⟩ : POI), ⟨"医院", none⟩] = 0 :=
  ⟨by simp,
    (claim_C10_none_distance_skipped [⟨"地铁", none⟩, ⟨"医院", none⟩] (by simp)).1⟩

example : calc_price_score none 10000 20000 = 5 := by decide
example : calc_price_score (some 15000) 10000 20000 = 8 := by
  norm_num [calc_price_score]
example : calc_price_score (some 21000) 10000 20000 = 13/4 := by
  norm_num [calc_price_score]
example : calc_price_score (some (-6)) (-10) (-5) = 1 := by
  norm_num [calc_price_score]
example :
    calc_facilities_score [⟨"地铁", some 300⟩, ⟨"医院", some 1500⟩] = 38/5 := by
  simp +decide [calc_facilities_score, category_best_scores, update_best,
    distance_to_score, CATEGORY_WEIGHTS, List.foldl]
  norm_num

end SmartHousing
